import Mathlib

/-!
Shallow embedding of the privilege-identity library (`src/lib.rs`):
the identity switcher (`change_root` / `change_user`), the privileged
command runners (`command`, `command_sudo`, `command_user`, `command_root`,
`command_try`) and the privileged file I/O (`write`, `write_sudo`,
`write_root`, `read`, `read_sudo`, `read_root`).

The mutable process state is the effective identity (euid, egid).  The
fixed per-scenario context holds the real user id (`Uid::current()`), the
`ALLOW_SUDO` flag, and oracles for the OS collaborators: whether
`seteuid` / `setegid` succeed, the environment, process spawning (direct
and through `sudo`), and the filesystem.  Every operation returns a
triple: its `Result`, the state after the call, and the trace of OS
actions it attempted (set-identity calls, direct spawns, `sudo` spawns,
filesystem reads and writes).
-/

deriving instance DecidableEq for Except

namespace Uidmng

/-- Captured output of a spawned process: `status.success()`, stdout bytes,
stderr bytes (mirrors `std::process::Output`). -/
structure Output where
  success : Bool
  stdout : List Nat
  stderr : List Nat
deriving DecidableEq, Repr

/-- Error values produced by the library, one constructor per error site in
`src/lib.rs` (`Box<dyn Error>` strings are identified by provenance). -/
inductive Err where
  | noRootPermission : Err
  | envVarMissing : String → Err
  | parseIntError : String → Err
  | invalidSudoUid : Err
  | osSetIdError : Err
  | spawnFailed : String → Err
  | stdinWriteFailed : Err
  | writeFileFailed : String → Err
  | readFileFailed : String → Err
  | fsError : String → Err
deriving DecidableEq, Repr

/-- Observable OS actions attempted by the library: set-identity calls,
direct spawns (`Command::new(program)`), helper spawns
(`Command::new("sudo")`), filesystem writes and reads.  Spawn and
filesystem events record the effective identity at the time of the call. -/
inductive Event where
  | seteuid : Nat → Event
  | setegid : Nat → Event
  | exec : String → List String → Nat → Nat → Event
  | sudo : String → List String → Nat → Nat → Event
  | fsWrite : String → List Nat → Nat → Nat → Event
  | fsRead : String → Nat → Nat → Event
deriving DecidableEq, Repr

/-- The mutable process-credential state: effective user id and effective
group id. -/
structure St where
  euid : Nat
  egid : Nat
deriving DecidableEq, Repr

/-- Oracles for the OS collaborators.  `spawn` / `sudoSpawn` take the
program, its arguments and the current effective identity and return
`none` for a spawn error or `some` captured output.  `fsRead` / `fsWrite`
model `std::fs` access at the current effective identity.  `stdinWriteOk`
models `write_all` on the piped stdin of the helper in `write_sudo`. -/
structure Os where
  seteuid_ok : Nat → Bool
  setegid_ok : Nat → Bool
  env : String → Option String
  spawn : String → List String → Nat → Nat → Option Output
  sudoSpawn : String → List String → Nat → Nat → Option Output
  fsRead : String → Nat → Nat → Option (List Nat)
  fsWrite : String → List Nat → Nat → Nat → Bool
  stdinWriteOk : String → List Nat → Bool

/-- Fixed per-scenario context: the OS oracles, the real user id
(`Uid::current()`, fixed for the process lifetime) and the process-wide
`ALLOW_SUDO` flag. -/
structure Ctx where
  os : Os
  ruid : Nat
  allowSudo : Bool

/-- Result of one library operation: the returned `Result`, the state after
the call, and the trace of attempted OS actions. -/
abbrev M (α : Type) := Except Err α × St × List Event

/-- Sequencing mirroring Rust's `?`: on error, return it at once; on
success, continue, concatenating traces. -/
def mbind {α β : Type} (x : M α) (f : α → St → M β) : M β :=
  match x with
  | (Except.error e, s, t) => (Except.error e, s, t)
  | (Except.ok a, s, t) =>
    match f a s with
    | (r, s2, t2) => (r, s2, t ++ t2)

/-- `is_root()`: the current effective user id is root. -/
def is_root (s : St) : Bool := s.euid == 0

/-- `has_root()`: the real user id is root. -/
def has_root (c : Ctx) : Bool := c.ruid == 0

/-- `nix::unistd::seteuid`: sets the effective user id when the oracle
allows, fails with an OS error otherwise; the attempt is traced either
way. -/
def seteuid (c : Ctx) (s : St) (u : Nat) : M Unit :=
  if c.os.seteuid_ok u then (Except.ok (), { s with euid := u }, [Event.seteuid u])
  else (Except.error Err.osSetIdError, s, [Event.seteuid u])

/-- `nix::unistd::setegid`: sets the effective group id when the oracle
allows, fails with an OS error otherwise; the attempt is traced either
way. -/
def setegid (c : Ctx) (s : St) (g : Nat) : M Unit :=
  if c.os.setegid_ok g then (Except.ok (), { s with egid := g }, [Event.setegid g])
  else (Except.error Err.osSetIdError, s, [Event.setegid g])

/-- Numeric value of a digit string. -/
def digitsVal (l : List Char) : Nat :=
  l.foldl (fun acc ch => acc * 10 + (ch.toNat - 48)) 0

/-- Core of `str::parse::<u32>`: nonempty all-digit strings below `2 ^ 32`. -/
def parseU32core (l : List Char) : Option Nat :=
  if l.isEmpty then none
  else if l.all Char.isDigit then
    if digitsVal l < 2 ^ 32 then some (digitsVal l) else none
  else none

/-- `String::parse::<u32>` as used on `SUDO_UID` / `SUDO_GID`: optional
leading plus sign, then a nonempty digit string whose value fits in 32
bits. -/
def parseU32 (str : String) : Option Nat :=
  match str.data with
  | '+' :: rest => parseU32core rest
  | l => parseU32core l

/-- `change_root()`: errors without real root permission; no-op when the
effective user id is already root; otherwise `seteuid(0)?` then
`setegid(0)?`. -/
def change_root (c : Ctx) (s : St) : M Unit :=
  if !(has_root c) then (Except.error Err.noRootPermission, s, [])
  else if is_root s then (Except.ok (), s, [])
  else mbind (seteuid c s 0) (fun _ s1 => setegid c s1 0)

/-- `change_user()`: no-op when the effective user id is already non-root;
otherwise reads and parses `SUDO_UID` and `SUDO_GID`, rejects a root
`SUDO_UID`, then `setegid(gid)?` and `seteuid(uid)?`. -/
def change_user (c : Ctx) (s : St) : M Unit :=
  if !(is_root s) then (Except.ok (), s, [])
  else
    match c.os.env "SUDO_UID" with
    | none => (Except.error (Err.envVarMissing "SUDO_UID"), s, [])
    | some sudo_uid =>
      match parseU32 sudo_uid with
      | none => (Except.error (Err.parseIntError sudo_uid), s, [])
      | some uid =>
        match c.os.env "SUDO_GID" with
        | none => (Except.error (Err.envVarMissing "SUDO_GID"), s, [])
        | some sudo_gid =>
          match parseU32 sudo_gid with
          | none => (Except.error (Err.parseIntError sudo_gid), s, [])
          | some gid =>
            if uid == 0 then (Except.error Err.invalidSudoUid, s, [])
            else mbind (setegid c s gid) (fun _ s1 => seteuid c s1 uid)

/-- `command(program, args)`: `Command::new(program).args(args).output()`. -/
def command (c : Ctx) (s : St) (program : String) (args : List String) : M Output :=
  match c.os.spawn program args s.euid s.egid with
  | none => (Except.error (Err.spawnFailed program), s, [Event.exec program args s.euid s.egid])
  | some out => (Except.ok out, s, [Event.exec program args s.euid s.egid])

/-- `command_sudo(program, args)`:
`Command::new("sudo").args(vec![program] ++ args).output()`. -/
def command_sudo (c : Ctx) (s : St) (program : String) (args : List String) : M Output :=
  match c.os.sudoSpawn program args s.euid s.egid with
  | none => (Except.error (Err.spawnFailed "sudo"), s, [Event.sudo program args s.euid s.egid])
  | some out => (Except.ok out, s, [Event.sudo program args s.euid s.egid])

/-- `command_user(program, args)`: run directly when not root, otherwise
`change_user()?`, run, `change_root()?`, return the run's result. -/
def command_user (c : Ctx) (s : St) (program : String) (args : List String) : M Output :=
  if !(is_root s) then command c s program args
  else
    mbind (change_user c s) (fun _ s1 =>
      match command c s1 program args with
      | (result, s2, t2) =>
        match change_root c s2 with
        | (Except.error e, s3, t3) => (Except.error e, s3, t2 ++ t3)
        | (Except.ok _, s3, t3) => (result, s3, t2 ++ t3))

/-- `command_root(program, args)`: run directly when root; otherwise, when
`change_root()` succeeds, run and `change_user()?`; when it fails, fall
back to `command_sudo` if `allow_sudo()`, else error. -/
def command_root (c : Ctx) (s : St) (program : String) (args : List String) : M Output :=
  if is_root s then command c s program args
  else
    match change_root c s with
    | (Except.ok _, s1, t1) =>
      match command c s1 program args with
      | (result, s2, t2) =>
        match change_user c s2 with
        | (Except.error e, s3, t3) => (Except.error e, s3, t1 ++ (t2 ++ t3))
        | (Except.ok _, s3, t3) => (result, s3, t1 ++ (t2 ++ t3))
    | (Except.error _, s1, t1) =>
      if c.allowSudo then
        match command_sudo c s1 program args with
        | (r, s2, t2) => (r, s2, t1 ++ t2)
      else (Except.error Err.noRootPermission, s1, t1)

/-- The early-return condition of `command_try`: the result is `Ok` and its
exit status reports success. -/
def successOf : Except Err Output → Bool
  | Except.ok out => out.success
  | Except.error _ => false

/-- `command_try(program, args)`: run once; return at once on a successful
exit status; otherwise retry through `command_root` when not root, else
return the first result. -/
def command_try (c : Ctx) (s : St) (program : String) (args : List String) : M Output :=
  match command c s program args with
  | (result, s1, t1) =>
    if successOf result then (result, s1, t1)
    else if !(is_root s1) then
      match command_root c s1 program args with
      | (r, s2, t2) => (r, s2, t1 ++ t2)
    else (result, s1, t1)

/-- `write(filename, data)`: `std::fs::write` at the current effective
identity. -/
def write (c : Ctx) (s : St) (filename : String) (data : List Nat) : M Unit :=
  if c.os.fsWrite filename data s.euid s.egid then
    (Except.ok (), s, [Event.fsWrite filename data s.euid s.egid])
  else
    (Except.error (Err.fsError filename), s, [Event.fsWrite filename data s.euid s.egid])

/-- `write_sudo(filename, data)`: spawn `sudo sh -c "cat > filename"` with
piped stdin, stream the bytes, wait; error when the spawn fails, the
stdin write fails, or the exit status reports failure. -/
def write_sudo (c : Ctx) (s : St) (filename : String) (data : List Nat) : M Unit :=
  match c.os.sudoSpawn "sh" ["-c", "cat > " ++ filename] s.euid s.egid with
  | none =>
    (Except.error (Err.spawnFailed "sudo"), s,
      [Event.sudo "sh" ["-c", "cat > " ++ filename] s.euid s.egid])
  | some out =>
    if !(c.os.stdinWriteOk filename data) then
      (Except.error Err.stdinWriteFailed, s,
        [Event.sudo "sh" ["-c", "cat > " ++ filename] s.euid s.egid])
    else if out.success then
      (Except.ok (), s, [Event.sudo "sh" ["-c", "cat > " ++ filename] s.euid s.egid])
    else
      (Except.error (Err.writeFileFailed filename), s,
        [Event.sudo "sh" ["-c", "cat > " ++ filename] s.euid s.egid])

/-- `write_root(filename, data)`: write directly when root; else, with real
root, `change_root()?`, write, `change_root()?` (the source restores by
calling `change_root` a second time), return the write's result; else
fall back to `write_sudo` if `allow_sudo()`, else error. -/
def write_root (c : Ctx) (s : St) (filename : String) (data : List Nat) : M Unit :=
  if is_root s then write c s filename data
  else
    if has_root c then
      mbind (change_root c s) (fun _ s1 =>
        match write c s1 filename data with
        | (result, s2, t2) =>
          match change_root c s2 with
          | (Except.error e, s3, t3) => (Except.error e, s3, t2 ++ t3)
          | (Except.ok _, s3, t3) => (result, s3, t2 ++ t3))
    else
      if c.allowSudo then write_sudo c s filename data
      else (Except.error Err.noRootPermission, s, [])

/-- `read(filename)`: `std::fs::read` at the current effective identity. -/
def read (c : Ctx) (s : St) (filename : String) : M (List Nat) :=
  match c.os.fsRead filename s.euid s.egid with
  | none => (Except.error (Err.fsError filename), s, [Event.fsRead filename s.euid s.egid])
  | some data => (Except.ok data, s, [Event.fsRead filename s.euid s.egid])

/-- `read_sudo(filename)`: `command_sudo("cat", [filename])?`; on a
successful exit status return the captured stdout, otherwise error. -/
def read_sudo (c : Ctx) (s : St) (filename : String) : M (List Nat) :=
  mbind (command_sudo c s "cat" [filename]) (fun out s1 =>
    if out.success then (Except.ok out.stdout, s1, [])
    else (Except.error (Err.readFileFailed filename), s1, []))

/-- `read_root(filename)`: read directly when root; else, with real root,
`change_root()?`, read, `change_root()?` (the source restores by calling
`change_root` a second time), return the read's result; else fall back to
`read_sudo` if `allow_sudo()`, else error. -/
def read_root (c : Ctx) (s : St) (filename : String) : M (List Nat) :=
  if is_root s then read c s filename
  else
    if has_root c then
      mbind (change_root c s) (fun _ s1 =>
        match read c s1 filename with
        | (result, s2, t2) =>
          match change_root c s2 with
          | (Except.error e, s3, t3) => (Except.error e, s3, t2 ++ t3)
          | (Except.ok _, s3, t3) => (result, s3, t2 ++ t3))
    else
      if c.allowSudo then read_sudo c s filename
      else (Except.error Err.noRootPermission, s, [])

/-- The configuration errors of the identity switcher: missing environment
hints, unparsable hints, or a root `SUDO_UID`. -/
def isConfigError : Err → Bool
  | Err.envVarMissing _ => true
  | Err.parseIntError _ => true
  | Err.invalidSudoUid => true
  | _ => false

/-- Whether an event is an invocation of the `sudo` helper path. -/
def isSudoEvent : Event → Bool
  | Event.sudo _ _ _ _ => true
  | _ => false

/-- Whether an event is a set-identity call. -/
def isSetIdEvent : Event → Bool
  | Event.seteuid _ => true
  | Event.setegid _ => true
  | _ => false

/-- Whether an event is a process spawn (direct or through the helper). -/
def isSpawnEvent : Event → Bool
  | Event.exec _ _ _ _ => true
  | Event.sudo _ _ _ _ => true
  | _ => false

/-- Number of process spawns attempted in a trace. -/
def spawnCount (t : List Event) : Nat := (t.filter isSpawnEvent).length

/-- A trace contains no invocation of the `sudo` helper path. -/
def noSudo (t : List Event) : Prop := ∀ e ∈ t, isSudoEvent e = false

/-- A successful captured output with some stdout bytes. -/
def outOK : Output := { success := true, stdout := [104, 105], stderr := [] }

/-- A failed captured output that still produced some stdout bytes. -/
def outBad : Output := { success := false, stdout := [104], stderr := [] }

/-- Benign OS oracles: set-identity always succeeds, `SUDO_UID` and
`SUDO_GID` are both `"1000"`, every spawn succeeds with `outOK`, the
filesystem always works. -/
def osGood : Os where
  seteuid_ok := fun _ => true
  setegid_ok := fun _ => true
  env := fun n =>
    if n == "SUDO_UID" then some "1000"
    else if n == "SUDO_GID" then some "1000" else none
  spawn := fun _ _ _ _ => some outOK
  sudoSpawn := fun _ _ _ _ => some outOK
  fsRead := fun _ _ _ => some [1, 2]
  fsWrite := fun _ _ _ _ => true
  stdinWriteOk := fun _ _ => true

/-- Like `osGood` but direct spawns fail (spawn error) unless the effective
user id is root. -/
def osRootOnlySpawn : Os :=
  { osGood with spawn := fun _ _ eu _ => if eu == 0 then some outOK else none }

/-- Like `osGood` but with `SUDO_GID` set to `"0"`. -/
def osGidZero : Os :=
  { osGood with env := fun n =>
      if n == "SUDO_UID" then some "1000"
      else if n == "SUDO_GID" then some "0" else none }

/-- Like `osGood` but with `SUDO_UID` unset. -/
def osNoUidHint : Os :=
  { osGood with env := fun n => if n == "SUDO_GID" then some "1000" else none }

/-- Like `osGood` but every helper spawn exits with failure after producing
some stdout bytes. -/
def osSudoFails : Os := { osGood with sudoSpawn := fun _ _ _ _ => some outBad }

/-- No root capability, helper allowed, helper exits with failure status. -/
def ctxSudoFails : Ctx := { os := osSudoFails, ruid := 1000, allowSudo := true }

/-- Process started as root via a `sudo`-like wrapper: real uid 0. -/
def ctxRealRoot : Ctx := { os := osGood, ruid := 0, allowSudo := false }

/-- Process whose real uid is 1000 (no root capability). -/
def ctxNoCap : Ctx := { os := osGood, ruid := 1000, allowSudo := false }

/-- No root capability, helper allowed. -/
def ctxNoCapSudo : Ctx := { os := osGood, ruid := 1000, allowSudo := true }

/-- Real root, direct spawns fail unless the effective user id is root. -/
def ctxRootOnlySpawn : Ctx := { os := osRootOnlySpawn, ruid := 0, allowSudo := false }

/-- Real root, `SUDO_UID` unset. -/
def ctxNoUidHint : Ctx := { os := osNoUidHint, ruid := 0, allowSudo := false }

/-- Real root, `SUDO_GID` set to `"0"`. -/
def ctxGidZero : Ctx := { os := osGidZero, ruid := 0, allowSudo := false }

/-- An environment hint that is absent or does not parse as an unsigned
32-bit integer. -/
def hintBad : Option String → Bool
  | none => true
  | some v => (parseU32 v).isNone

/-- An environment hint that parses to the root user id 0. -/
def hintRoot : Option String → Bool
  | none => false
  | some v => parseU32 v == some 0

/-- A Lowered effective identity (invoking user 1000). -/
def stLow : St := { euid := 1000, egid := 1000 }

/-- An Elevated effective identity. -/
def stRootE : St := { euid := 0, egid := 0 }

end Uidmng

namespace Uidmng

/-- C1: at the failing input — real root capability (`ruid = 0`), Lowered
effective identity `(1000, 1000)`, every OS call succeeding — `write_root`
and `read_root` succeed but return with effective identity `(0, 0)`: the
source "restores" by calling `change_root` a second time (a no-op), so
the pre-call Lowered identity is not restored even though the restore
step succeeds. -/
theorem write_read_root_leave_identity_elevated :
    (write_root ctxRealRoot stLow "/tmp/x" [1]).fst = Except.ok () ∧
    (write_root ctxRealRoot stLow "/tmp/x" [1]).2.1 = { euid := 0, egid := 0 } ∧
    (read_root ctxRealRoot stLow "/tmp/x").fst = Except.ok [1, 2] ∧
    (read_root ctxRealRoot stLow "/tmp/x").2.1 = { euid := 0, egid := 0 } ∧
    stLow.euid ≠ 0 := by decide

/-- C2, counterexample: elevating from the Lowered state `(1000, 1000)`
with real root capability, `change_root` attempts `seteuid 0` first and
`setegid 0` second — not group-id first as the claim states. -/
theorem change_root_order_counterexample :
    (change_root ctxRealRoot stLow).2.2 = [Event.seteuid 0, Event.setegid 0] ∧
    (change_root ctxRealRoot stLow).2.2 ≠ [Event.setegid 0, Event.seteuid 0] := by decide

/-- C2, amended: for every elevation from a Lowered state with real root
capability whose first set-identity call succeeds, `change_root` attempts
the two underlying calls in the order effective user-id to 0 first, then
effective group-id to 0. -/
theorem change_root_sets_user_then_group (c : Ctx) (s : St)
    (hr : c.ruid = 0) (hl : s.euid ≠ 0) (hok : c.os.seteuid_ok 0 = true) :
    (change_root c s).2.2 = [Event.seteuid 0, Event.setegid 0] := by
  have h1 : has_root c = true := by simp [has_root, hr]
  have h2 : is_root s = false := by simp [is_root, hl]
  by_cases hg : c.os.setegid_ok 0 = true
  · simp [change_root, h1, h2, mbind, seteuid, setegid, hok, hg]
  · simp [change_root, h1, h2, mbind, seteuid, setegid, hok, hg]

/-- C2, witness: the amended order theorem applied at the concrete Lowered
state `(1000, 1000)` with real root capability. -/
theorem change_root_sets_user_then_group_witness :
    (change_root ctxRealRoot stLow).2.2 = [Event.seteuid 0, Event.setegid 0] :=
  change_root_sets_user_then_group ctxRealRoot stLow rfl (by decide) rfl

/-- C3, counterexample: with effective user-id already 0 but real user-id
1000 (a setuid-root style state), `change_root` fails with the permission
error instead of succeeding as a no-op, because the source checks
`has_root()` before the already-elevated no-op check. -/
theorem change_root_elevated_no_cap_counterexample :
    stRootE.euid = 0 ∧
    (change_root ctxNoCap stRootE).fst = Except.error Err.noRootPermission := by decide

/-- C3, amended: `change_root` returns the permission-denied error exactly
when the real user-id is nonzero, regardless of the effective user-id;
and when the real user-id is 0 and the effective user-id is already 0 it
succeeds as a no-op (no state change, no OS call). -/
theorem change_root_permission_denied_iff (c : Ctx) (s : St) :
    ((change_root c s).fst = Except.error Err.noRootPermission ↔ c.ruid ≠ 0) ∧
    (c.ruid = 0 → s.euid = 0 → change_root c s = (Except.ok (), s, [])) := by
  by_cases hr : c.ruid = 0
  · have h1 : has_root c = true := by simp [has_root, hr]
    refine ⟨⟨fun h => absurd hr ?_, fun h => absurd hr h⟩, fun _ he => by
      simp [change_root, h1, is_root, he]⟩
    exfalso
    by_cases he : s.euid = 0
    · simp [change_root, h1, is_root, he] at h
    · have h2 : is_root s = false := by simp [is_root, he]
      by_cases hu : c.os.seteuid_ok 0 = true
      · by_cases hg : c.os.setegid_ok 0 = true
        · simp [change_root, h1, h2, mbind, seteuid, setegid, hu, hg] at h
        · simp [change_root, h1, h2, mbind, seteuid, setegid, hu, hg] at h
      · simp [change_root, h1, h2, mbind, seteuid, setegid, hu] at h
  · have h1 : has_root c = false := by simp [has_root, hr]
    exact ⟨by simp [change_root, h1, hr], fun h => absurd h hr⟩

/-- C3, witness: the amended theorem applied at the setuid-root style state
(real uid 1000, effective uid 0), where the permission error is returned. -/
theorem change_root_permission_denied_iff_witness :
    (change_root ctxNoCap stRootE).fst = Except.error Err.noRootPermission :=
  (change_root_permission_denied_iff ctxNoCap stRootE).1.mpr (by decide)

/-- C4: at the failing input — real uid 1000 with effective uid 0 (so
`change_user` succeeds and the restoring `change_root` must fail), every
spawn succeeding — the inner run of `command_user` succeeds with `outOK`,
yet `command_user` returns only the restore error, discarding the
successful result. -/
theorem command_user_restore_failure_discards_success :
    ctxNoCap.os.spawn "ls" [] 1000 1000 = some outOK ∧
    (command_user ctxNoCap stRootE "ls" []).fst = Except.error Err.noRootPermission := by
  decide

/-- A set-identity event is not a helper invocation. -/
theorem setid_not_sudo (e : Event) (h : isSetIdEvent e = true) :
    isSudoEvent e = false := by
  cases e <;> simp_all [isSetIdEvent, isSudoEvent]

/-- Every event traced by `change_root` is a set-identity call. -/
theorem change_root_trace_setid (c : Ctx) (s : St) :
    ∀ e ∈ (change_root c s).2.2, isSetIdEvent e = true := by
  intro e he
  by_cases h1 : has_root c = true
  · by_cases h2 : is_root s = true
    · simp [change_root, h1, h2] at he
    · by_cases hu : c.os.seteuid_ok 0 = true
      · by_cases hg : c.os.setegid_ok 0 = true
        · simp [change_root, h1, h2, mbind, seteuid, setegid, hu, hg] at he
          rcases he with rfl | rfl <;> rfl
        · simp [change_root, h1, h2, mbind, seteuid, setegid, hu, hg] at he
          rcases he with rfl | rfl <;> rfl
      · simp [change_root, h1, h2, mbind, seteuid, setegid, hu] at he
        subst he; rfl
  · simp [change_root, h1] at he

/-- Every event traced by `change_user` is a set-identity call. -/
theorem change_user_trace_setid (c : Ctx) (s : St) :
    ∀ e ∈ (change_user c s).2.2, isSetIdEvent e = true := by
  intro e he
  by_cases h2 : is_root s = true
  · rcases hU : c.os.env "SUDO_UID" with _ | u
    · simp [change_user, h2, hU] at he
    · rcases hPU : parseU32 u with _ | uid
      · simp [change_user, h2, hU, hPU] at he
      · rcases hG : c.os.env "SUDO_GID" with _ | g
        · simp [change_user, h2, hU, hPU, hG] at he
        · rcases hPG : parseU32 g with _ | gid
          · simp [change_user, h2, hU, hPU, hG, hPG] at he
          · by_cases hz : uid = 0
            · simp [change_user, h2, hU, hPU, hG, hPG, hz] at he
            · by_cases hg : c.os.setegid_ok gid = true
              · by_cases hu2 : c.os.seteuid_ok uid = true
                · simp [change_user, h2, hU, hPU, hG, hPG, hz, mbind, setegid,
                    seteuid, hg, hu2] at he
                  rcases he with rfl | rfl <;> rfl
                · simp [change_user, h2, hU, hPU, hG, hPG, hz, mbind, setegid,
                    seteuid, hg, hu2] at he
                  rcases he with rfl | rfl <;> rfl
              · simp [change_user, h2, hU, hPU, hG, hPG, hz, mbind, setegid,
                  seteuid, hg] at he
                subst he; rfl
  · simp [change_user, h2] at he

/-- `command` traces exactly one direct spawn and leaves the state alone. -/
theorem command_trace_eq (c : Ctx) (s : St) (p : String) (a : List String) :
    (command c s p a).2.2 = [Event.exec p a s.euid s.egid] := by
  unfold command; split <;> rfl

/-- `command` does not change the effective identity. -/
theorem command_state_eq (c : Ctx) (s : St) (p : String) (a : List String) :
    (command c s p a).2.1 = s := by
  unfold command; split <;> rfl

/-- `write` traces exactly one filesystem write. -/
theorem write_trace_eq (c : Ctx) (s : St) (f : String) (d : List Nat) :
    (write c s f d).2.2 = [Event.fsWrite f d s.euid s.egid] := by
  unfold write; split <;> rfl

/-- `read` traces exactly one filesystem read. -/
theorem read_trace_eq (c : Ctx) (s : St) (f : String) :
    (read c s f).2.2 = [Event.fsRead f s.euid s.egid] := by
  unfold read; split <;> rfl

/-- `command_sudo` traces exactly one helper spawn. -/
theorem command_sudo_trace_eq (c : Ctx) (s : St) (p : String) (a : List String) :
    (command_sudo c s p a).2.2 = [Event.sudo p a s.euid s.egid] := by
  unfold command_sudo; split <;> rfl

/-- `read_sudo` traces exactly one helper spawn (the `cat` of the file). -/
theorem read_sudo_trace_eq (c : Ctx) (s : St) (f : String) :
    (read_sudo c s f).2.2 = [Event.sudo "cat" [f] s.euid s.egid] := by
  have ht := command_sudo_trace_eq c s "cat" [f]
  rcases hcs : command_sudo c s "cat" [f] with ⟨r, s1, t1⟩
  rw [hcs] at ht
  rcases r with e | out
  · simpa [read_sudo, mbind, hcs] using ht
  · by_cases hsuc : out.success = true <;>
      simpa [read_sudo, mbind, hcs, hsuc] using ht

/-- `write_sudo` traces exactly one helper spawn (the shell writing the
file from its standard input). -/
theorem write_sudo_trace_eq (c : Ctx) (s : St) (f : String) (d : List Nat) :
    (write_sudo c s f d).2.2 = [Event.sudo "sh" ["-c", "cat > " ++ f] s.euid s.egid] := by
  unfold write_sudo
  rcases h : c.os.sudoSpawn "sh" ["-c", "cat > " ++ f] s.euid s.egid with _ | out
  · simp [h]
  · simp [h]
    split
    · rfl
    · split <;> rfl

/-- C5: fallback gating of `command_root`, `read_root` and `write_root`:
with `allow_sudo()` false the helper path is never invoked in any state;
with direct elevation unavailable (real uid nonzero) and the process not
elevated they return the permission error having performed no OS action
at all (in particular no filesystem write); with `allow_sudo()` true and
direct elevation unavailable they invoke the helper path and only it. -/
theorem root_ops_fallback_gating (c : Ctx) (s : St) (p : String) (a : List String)
    (f : String) (d : List Nat) :
    (c.allowSudo = false →
      noSudo (command_root c s p a).2.2 ∧
      noSudo (read_root c s f).2.2 ∧
      noSudo (write_root c s f d).2.2) ∧
    (c.allowSudo = false → s.euid ≠ 0 → c.ruid ≠ 0 →
      command_root c s p a = (Except.error Err.noRootPermission, s, []) ∧
      read_root c s f = (Except.error Err.noRootPermission, s, []) ∧
      write_root c s f d = (Except.error Err.noRootPermission, s, [])) ∧
    (c.allowSudo = true → s.euid ≠ 0 → c.ruid ≠ 0 →
      (command_root c s p a).2.2 = [Event.sudo p a s.euid s.egid] ∧
      (read_root c s f).2.2 = [Event.sudo "cat" [f] s.euid s.egid] ∧
      (write_root c s f d).2.2 = [Event.sudo "sh" ["-c", "cat > " ++ f] s.euid s.egid]) := by
  refine ⟨fun hs => ⟨?_, ?_, ?_⟩, fun hs he hr => ?_, fun hs he hr => ?_⟩
  · -- no helper invocation in command_root when disallowed
    by_cases hex : is_root s = true
    · have hcc : command_root c s p a = command c s p a := by
        simp [command_root, hex]
      intro e he
      rw [hcc, command_trace_eq] at he
      simp at he; subst he; rfl
    · rcases hcr : change_root c s with ⟨r, s1, t1⟩
      have ht1 := change_root_trace_setid c s
      rw [hcr] at ht1
      rcases r with er | u
      · have hcc : command_root c s p a = (Except.error Err.noRootPermission, s1, t1) := by
          simp [command_root, hex, hcr, hs]
        intro e he
        rw [hcc] at he
        exact setid_not_sudo e (ht1 e he)
      · rcases hcm : command c s1 p a with ⟨r2, s2, t2⟩
        have ht2 := command_trace_eq c s1 p a
        rw [hcm] at ht2
        rcases hcu : change_user c s2 with ⟨r3, s3, t3⟩
        have ht3 := change_user_trace_setid c s2
        rw [hcu] at ht3
        have htr : (command_root c s p a).2.2 = t1 ++ (t2 ++ t3) := by
          rcases r3 with e3 | u3 <;> simp [command_root, hex, hcr, hcm, hcu]
        intro e he
        rw [htr] at he
        simp only [List.mem_append] at he
        rcases he with he | he | he
        · exact setid_not_sudo e (ht1 e he)
        · rw [show t2 = _ from ht2] at he
          simp at he; subst he; rfl
        · exact setid_not_sudo e (ht3 e he)
  · -- no helper invocation in read_root when disallowed
    by_cases hex : is_root s = true
    · have hcc : read_root c s f = read c s f := by simp [read_root, hex]
      intro e he
      rw [hcc, read_trace_eq] at he
      simp at he; subst he; rfl
    · by_cases hhr : has_root c = true
      · rcases hcr : change_root c s with ⟨r, s1, t1⟩
        have ht1 := change_root_trace_setid c s
        rw [hcr] at ht1
        rcases r with er | u
        · have hcc : read_root c s f = (Except.error er, s1, t1) := by
            simp [read_root, hex, hhr, mbind, hcr]
          intro e he
          rw [hcc] at he
          exact setid_not_sudo e (ht1 e he)
        · rcases hrd : read c s1 f with ⟨r2, s2, t2⟩
          have ht2 := read_trace_eq c s1 f
          rw [hrd] at ht2
          rcases hc2 : change_root c s2 with ⟨r3, s3, t3⟩
          have ht3 := change_root_trace_setid c s2
          rw [hc2] at ht3
          have htr : (read_root c s f).2.2 = t1 ++ (t2 ++ t3) := by
            rcases r3 with e3 | u3 <;> simp [read_root, hex, hhr, mbind, hcr, hrd, hc2]
          intro e he
          rw [htr] at he
          simp only [List.mem_append] at he
          rcases he with he | he | he
          · exact setid_not_sudo e (ht1 e he)
          · rw [show t2 = _ from ht2] at he
            simp at he; subst he; rfl
          · exact setid_not_sudo e (ht3 e he)
      · have hcc : read_root c s f = (Except.error Err.noRootPermission, s, []) := by
          simp [read_root, hex, hhr, hs]
        intro e he
        rw [hcc] at he
        simp at he
  · -- no helper invocation in write_root when disallowed
    by_cases hex : is_root s = true
    · have hcc : write_root c s f d = write c s f d := by simp [write_root, hex]
      intro e he
      rw [hcc, write_trace_eq] at he
      simp at he; subst he; rfl
    · by_cases hhr : has_root c = true
      · rcases hcr : change_root c s with ⟨r, s1, t1⟩
        have ht1 := change_root_trace_setid c s
        rw [hcr] at ht1
        rcases r with er | u
        · have hcc : write_root c s f d = (Except.error er, s1, t1) := by
            simp [write_root, hex, hhr, mbind, hcr]
          intro e he
          rw [hcc] at he
          exact setid_not_sudo e (ht1 e he)
        · rcases hwr : write c s1 f d with ⟨r2, s2, t2⟩
          have ht2 := write_trace_eq c s1 f d
          rw [hwr] at ht2
          rcases hc2 : change_root c s2 with ⟨r3, s3, t3⟩
          have ht3 := change_root_trace_setid c s2
          rw [hc2] at ht3
          have htr : (write_root c s f d).2.2 = t1 ++ (t2 ++ t3) := by
            rcases r3 with e3 | u3 <;> simp [write_root, hex, hhr, mbind, hcr, hwr, hc2]
          intro e he
          rw [htr] at he
          simp only [List.mem_append] at he
          rcases he with he | he | he
          · exact setid_not_sudo e (ht1 e he)
          · rw [show t2 = _ from ht2] at he
            simp at he; subst he; rfl
          · exact setid_not_sudo e (ht3 e he)
      · have hcc : write_root c s f d = (Except.error Err.noRootPermission, s, []) := by
          simp [write_root, hex, hhr, hs]
        intro e he
        rw [hcc] at he
        simp at he
  · -- policy disallowed, no elevation path: permission error, no OS action
    have hex : is_root s = false := by simp [is_root, he]
    have hhr : has_root c = false := by simp [has_root, hr]
    have hcr : change_root c s = (Except.error Err.noRootPermission, s, []) := by
      simp [change_root, hhr]
    refine ⟨?_, ?_, ?_⟩
    · simp [command_root, hex, hcr, hs]
    · simp [read_root, hex, hhr, hs]
    · simp [write_root, hex, hhr, hs]
  · -- policy allowed, no elevation path: exactly one helper invocation
    have hex : is_root s = false := by simp [is_root, he]
    have hhr : has_root c = false := by simp [has_root, hr]
    have hcr : change_root c s = (Except.error Err.noRootPermission, s, []) := by
      simp [change_root, hhr]
    refine ⟨?_, ?_, ?_⟩
    · rcases hcs : command_sudo c s p a with ⟨r, s1, t1⟩
      have ht := command_sudo_trace_eq c s p a
      rw [hcs] at ht
      simp [command_root, hex, hcr, hs, hcs]
      exact ht
    · rw [show read_root c s f = read_sudo c s f by simp [read_root, hex, hhr, hs]]
      exact read_sudo_trace_eq c s f
    · rw [show write_root c s f d = write_sudo c s f d by simp [write_root, hex, hhr, hs]]
      exact write_sudo_trace_eq c s f d

/-- C5, witness: at the concrete Lowered no-capability state, with the
policy disallowed `command_root` returns the permission error with an
empty trace, and with the policy allowed its trace is exactly the helper
invocation. -/
theorem root_ops_fallback_gating_witness :
    command_root ctxNoCap stLow "ls" [] = (Except.error Err.noRootPermission, stLow, []) ∧
    (command_root ctxNoCapSudo stLow "ls" []).2.2 = [Event.sudo "ls" [] 1000 1000] :=
  ⟨((root_ops_fallback_gating ctxNoCap stLow "ls" [] "/tmp/x" [1]).2.1 rfl
      (by decide) (by decide)).1,
   ((root_ops_fallback_gating ctxNoCapSudo stLow "ls" [] "/tmp/x" [1]).2.2 rfl
      (by decide) (by decide)).1⟩

/-- C6: from an Elevated state, whenever either environment hint is absent
or unparsable, or the invoking user-id hint parses to 0, `change_user`
fails with a configuration error, the effective identity is unchanged and
no set-identity call is made. -/
theorem change_user_config_error_no_setid (c : Ctx) (s : St) (helev : s.euid = 0)
    (hbad : (hintBad (c.os.env "SUDO_UID") || hintBad (c.os.env "SUDO_GID") ||
             hintRoot (c.os.env "SUDO_UID")) = true) :
    (∃ er, (change_user c s).fst = Except.error er ∧ isConfigError er = true) ∧
    (change_user c s).2.1 = s ∧ (change_user c s).2.2 = [] := by
  have h2 : is_root s = true := by simp [is_root, helev]
  rcases hU : c.os.env "SUDO_UID" with _ | u
  · refine ⟨⟨Err.envVarMissing "SUDO_UID", ?_, rfl⟩, ?_, ?_⟩ <;>
      simp [change_user, h2, hU]
  · rcases hPU : parseU32 u with _ | uid
    · refine ⟨⟨Err.parseIntError u, ?_, rfl⟩, ?_, ?_⟩ <;>
        simp [change_user, h2, hU, hPU]
    · rcases hG : c.os.env "SUDO_GID" with _ | g
      · refine ⟨⟨Err.envVarMissing "SUDO_GID", ?_, rfl⟩, ?_, ?_⟩ <;>
          simp [change_user, h2, hU, hPU, hG]
      · rcases hPG : parseU32 g with _ | gid
        · refine ⟨⟨Err.parseIntError g, ?_, rfl⟩, ?_, ?_⟩ <;>
            simp [change_user, h2, hU, hPU, hG, hPG]
        · have hz : uid = 0 := by
            simp [hintBad, hintRoot, hU, hG, hPU, hPG] at hbad
            exact hbad
          subst hz
          refine ⟨⟨Err.invalidSudoUid, ?_, rfl⟩, ?_, ?_⟩ <;>
            simp [change_user, h2, hU, hPU, hG, hPG]

/-- C6, witness: with `SUDO_UID` unset and the process Elevated,
`change_user` fails with a configuration error, changes nothing and makes
no OS call. -/
theorem change_user_config_error_no_setid_witness :
    (∃ er, (change_user ctxNoUidHint stRootE).fst = Except.error er ∧
      isConfigError er = true) ∧
    (change_user ctxNoUidHint stRootE).2.1 = stRootE ∧
    (change_user ctxNoUidHint stRootE).2.2 = [] :=
  change_user_config_error_no_setid ctxNoUidHint stRootE rfl (by decide)

/-- A trace of set-identity events contains no process spawn. -/
theorem spawnCount_setid (t : List Event) (h : ∀ e ∈ t, isSetIdEvent e = true) :
    spawnCount t = 0 := by
  induction t with
  | nil => rfl
  | cons x xs ih =>
    have hx : isSpawnEvent x = false := by
      have := h x (List.mem_cons_self x xs)
      cases x <;> simp_all [isSetIdEvent, isSpawnEvent]
    have hxs := ih fun e he => h e (List.mem_cons_of_mem x he)
    simpa [spawnCount, List.filter_cons, hx] using hxs

/-- Spawn counts add over trace concatenation. -/
theorem spawnCount_append (t1 t2 : List Event) :
    spawnCount (t1 ++ t2) = spawnCount t1 + spawnCount t2 := by
  simp [spawnCount, List.filter_append]

/-- `command_root` attempts at most one process spawn. -/
theorem command_root_spawnCount_le (c : Ctx) (s : St) (p : String) (a : List String) :
    spawnCount (command_root c s p a).2.2 ≤ 1 := by
  by_cases hex : is_root s = true
  · have hcc : command_root c s p a = command c s p a := by simp [command_root, hex]
    rw [hcc, command_trace_eq]
    rfl
  · rcases hcr : change_root c s with ⟨r, s1, t1⟩
    have ht1 : spawnCount t1 = 0 := by
      apply spawnCount_setid
      have := change_root_trace_setid c s
      rw [hcr] at this
      exact this
    rcases r with er | u
    · by_cases hs : c.allowSudo = true
      · rcases hcs : command_sudo c s1 p a with ⟨r2, s2, t2⟩
        have ht2 : t2 = [Event.sudo p a s1.euid s1.egid] := by
          have := command_sudo_trace_eq c s1 p a
          rw [hcs] at this
          exact this
        have hcc : (command_root c s p a).2.2 = t1 ++ t2 := by
          simp [command_root, hex, hcr, hs, hcs]
        rw [hcc, spawnCount_append, ht1, ht2]
        rfl
      · have hsf : c.allowSudo = false := by simpa using hs
        have hcc : (command_root c s p a).2.2 = t1 := by
          simp [command_root, hex, hcr, hsf]
        rw [hcc, ht1]
        exact Nat.zero_le 1
    · rcases hcm : command c s1 p a with ⟨r2, s2, t2⟩
      have ht2 : t2 = [Event.exec p a s1.euid s1.egid] := by
        have := command_trace_eq c s1 p a
        rw [hcm] at this
        exact this
      rcases hcu : change_user c s2 with ⟨r3, s3, t3⟩
      have ht3 : spawnCount t3 = 0 := by
        apply spawnCount_setid
        have := change_user_trace_setid c s2
        rw [hcu] at this
        exact this
      have hcc : (command_root c s p a).2.2 = t1 ++ (t2 ++ t3) := by
        rcases r3 with e3 | u3 <;> simp [command_root, hex, hcr, hcm, hcu]
      rw [hcc, spawnCount_append, spawnCount_append, ht1, ht2, ht3]
      rfl

/-- C7, counterexample: real root capability, direct spawns failing for the
non-root identity: the first run of `command_try` fails with a spawn
error — there is no exit status at all — yet `command_try` retries (its
trace holds two spawns) and returns the retried run's success, so the
claim's "retries only on a nonzero exit status, not merely a spawn
error" is false on the code. -/
theorem command_try_retries_on_spawn_error_counterexample :
    (command ctxRootOnlySpawn stLow "p" []).fst = Except.error (Err.spawnFailed "p") ∧
    spawnCount (command_try ctxRootOnlySpawn stLow "p" []).2.2 = 2 ∧
    (command_try ctxRootOnlySpawn stLow "p" []).fst = Except.ok outOK := by decide

/-- C7, amended: `command_try` runs the command unprivileged first and
retries via `command_root` exactly once, exactly when the first result is
not a successful exit status — a nonzero exit status or a spawn error —
and the identity is not already Elevated; if the first run succeeds or
the identity is Elevated, the first result is returned with no retry. -/
theorem command_try_retry_policy (c : Ctx) (s : St) (p : String) (a : List String) :
    (successOf (command c s p a).fst = true →
      command_try c s p a = command c s p a) ∧
    (successOf (command c s p a).fst = false → s.euid = 0 →
      command_try c s p a = command c s p a) ∧
    (successOf (command c s p a).fst = false → s.euid ≠ 0 →
      (command_try c s p a).fst = (command_root c s p a).fst ∧
      (command_try c s p a).2.2 = (command c s p a).2.2 ++ (command_root c s p a).2.2 ∧
      spawnCount (command_try c s p a).2.2 ≤ 2) := by
  have hst : (command c s p a).2.1 = s := command_state_eq c s p a
  refine ⟨fun h => ?_, fun h he => ?_, fun h he => ?_⟩
  · simp [command_try, h]
  · have hroot : is_root s = true := by simp [is_root, he]
    simp [command_try, h, hst, hroot]
    calc ((command c s p a).1, s, (command c s p a).2.2)
        = ((command c s p a).1, (command c s p a).2.1, (command c s p a).2.2) := by rw [hst]
      _ = command c s p a := rfl
  · have hroot : is_root s = false := by simp [is_root, he]
    have hcc : command_try c s p a =
        ((command_root c s p a).1, (command_root c s p a).2.1,
          (command c s p a).2.2 ++ (command_root c s p a).2.2) := by
      simp [command_try, h, hroot, hst]
    refine ⟨by rw [hcc], by rw [hcc], ?_⟩
    rw [show (command_try c s p a).2.2 =
        (command c s p a).2.2 ++ (command_root c s p a).2.2 by rw [hcc],
      spawnCount_append, command_trace_eq]
    have hle := command_root_spawnCount_le c s p a
    have hone : spawnCount [Event.exec p a s.euid s.egid] = 1 := rfl
    omega

/-- C7, witness: the amended retry policy applied where the first run
succeeds — `command_try` returns it unchanged with a single spawn. -/
theorem command_try_retry_policy_witness :
    command_try ctxRealRoot stLow "ls" [] = command ctxRealRoot stLow "ls" [] :=
  (command_try_retry_policy ctxRealRoot stLow "ls" []).1 (by decide)

/-- C8: with real root capability, set-identity calls succeeding and valid
non-root environment hints, `change_root` twice equals `change_root`
once, and `change_user` twice equals `change_user` once: the first call
succeeds and the second call succeeds as a no-op — same state, no
set-identity call. -/
theorem elevate_lower_idempotent (c : Ctx) (s : St)
    (hr : c.ruid = 0)
    (hu0 : c.os.seteuid_ok 0 = true) (hg0 : c.os.setegid_ok 0 = true)
    (uS gS : String) (uid gid : Nat)
    (hU : c.os.env "SUDO_UID" = some uS) (hPU : parseU32 uS = some uid) (hz : uid ≠ 0)
    (hG : c.os.env "SUDO_GID" = some gS) (hPG : parseU32 gS = some gid)
    (hgu : c.os.setegid_ok gid = true) (huu : c.os.seteuid_ok uid = true) :
    ((change_root c s).fst = Except.ok () ∧
     change_root c ((change_root c s).2.1) = (Except.ok (), (change_root c s).2.1, [])) ∧
    ((change_user c s).fst = Except.ok () ∧
     change_user c ((change_user c s).2.1) = (Except.ok (), (change_user c s).2.1, [])) := by
  have h1 : has_root c = true := by simp [has_root, hr]
  constructor
  · by_cases he : is_root s = true
    · have hone : change_root c s = (Except.ok (), s, []) := by
        simp [change_root, h1, he]
      rw [hone]
      exact ⟨rfl, by simp [change_root, h1, he]⟩
    · have hone : change_root c s =
          (Except.ok (), { euid := 0, egid := 0 }, [Event.seteuid 0, Event.setegid 0]) := by
        simp [change_root, h1, he, mbind, seteuid, setegid, hu0, hg0]
      rw [hone]
      exact ⟨rfl, by simp [change_root, h1, is_root]⟩
  · by_cases he : is_root s = true
    · have hone : change_user c s =
          (Except.ok (), { euid := uid, egid := gid }, [Event.setegid gid, Event.seteuid uid]) := by
        simp [change_user, he, hU, hPU, hG, hPG, hz, mbind, setegid, seteuid, hgu, huu]
      rw [hone]
      refine ⟨rfl, ?_⟩
      have hlow : is_root { euid := uid, egid := gid } = false := by simp [is_root, hz]
      simp [change_user, hlow]
    · have hone : change_user c s = (Except.ok (), s, []) := by
        simp [change_user, he]
      rw [hone]
      exact ⟨rfl, by simp [change_user, he]⟩

/-- C8, witness: idempotence at the concrete Lowered state `(1000, 1000)`
with real root and hints `"1000"` / `"1000"`. -/
theorem elevate_lower_idempotent_witness :
    ((change_root ctxRealRoot stLow).fst = Except.ok () ∧
     change_root ctxRealRoot ((change_root ctxRealRoot stLow).2.1) =
       (Except.ok (), (change_root ctxRealRoot stLow).2.1, [])) ∧
    ((change_user ctxRealRoot stLow).fst = Except.ok () ∧
     change_user ctxRealRoot ((change_user ctxRealRoot stLow).2.1) =
       (Except.ok (), (change_user ctxRealRoot stLow).2.1, [])) :=
  elevate_lower_idempotent ctxRealRoot stLow rfl rfl rfl "1000" "1000" 1000 1000
    rfl (by decide) (by decide) rfl (by decide) rfl rfl

/-- C9: `read_sudo` spawns the helper to stream the file's bytes (exactly
one helper invocation of `cat` on the path), returns exactly the streamed
stdout bytes when the helper's exit status reports success, and fails —
with a spawn error when the helper cannot be launched, and with the read
error whenever the exit status reports failure, regardless of any stdout
bytes produced: partial output is never returned. -/
theorem read_sudo_spec (c : Ctx) (s : St) (f : String) :
    (c.os.sudoSpawn "cat" [f] s.euid s.egid = none →
      (read_sudo c s f).fst = Except.error (Err.spawnFailed "sudo")) ∧
    (∀ out, c.os.sudoSpawn "cat" [f] s.euid s.egid = some out →
      (out.success = true → (read_sudo c s f).fst = Except.ok out.stdout) ∧
      (out.success = false → (read_sudo c s f).fst = Except.error (Err.readFileFailed f))) ∧
    (read_sudo c s f).2.2 = [Event.sudo "cat" [f] s.euid s.egid] := by
  refine ⟨fun h => ?_, fun out h => ⟨fun hsuc => ?_, fun hsuc => ?_⟩,
    read_sudo_trace_eq c s f⟩
  · simp [read_sudo, mbind, command_sudo, h]
  · simp [read_sudo, mbind, command_sudo, h, hsuc]
  · simp [read_sudo, mbind, command_sudo, h, hsuc]

/-- C9, witness: a helper exit status reporting failure with nonempty
stdout (`outBad`) yields the read error, not the partial bytes; a
successful helper run returns its stdout. -/
theorem read_sudo_spec_witness :
    outBad.stdout ≠ [] ∧
    (read_sudo ctxSudoFails stLow "/tmp/x").fst =
      Except.error (Err.readFileFailed "/tmp/x") ∧
    (read_sudo ctxNoCapSudo stLow "/tmp/x").fst = Except.ok outOK.stdout :=
  ⟨by decide,
   ((read_sudo_spec ctxSudoFails stLow "/tmp/x").2.1 outBad rfl).2 rfl,
   ((read_sudo_spec ctxNoCapSudo stLow "/tmp/x").2.1 outOK rfl).1 rfl⟩

/-- C10: `change_user` validates only the user hint against root: from an
Elevated state, when `SUDO_UID` parses to a nonzero value, `SUDO_GID`
parses to 0 and both set-identity calls succeed, it succeeds and leaves
the process holding effective group id 0 (the root group) under a
non-root effective user id. -/
theorem change_user_accepts_root_gid (c : Ctx) (s : St) (helev : s.euid = 0)
    (uS gS : String) (uid : Nat)
    (hU : c.os.env "SUDO_UID" = some uS) (hPU : parseU32 uS = some uid) (hz : uid ≠ 0)
    (hG : c.os.env "SUDO_GID" = some gS) (hPG : parseU32 gS = some 0)
    (hg : c.os.setegid_ok 0 = true) (hu : c.os.seteuid_ok uid = true) :
    (change_user c s).fst = Except.ok () ∧
    (change_user c s).2.1 = { euid := uid, egid := 0 } := by
  have h2 : is_root s = true := by simp [is_root, helev]
  simp [change_user, h2, hU, hPU, hG, hPG, hz, mbind, setegid, seteuid, hg, hu]

/-- C10, witness: `SUDO_UID = "1000"`, `SUDO_GID = "0"`, Elevated start:
`change_user` succeeds and leaves the identity `(1000, 0)`. -/
theorem change_user_accepts_root_gid_witness :
    (change_user ctxGidZero stRootE).fst = Except.ok () ∧
    (change_user ctxGidZero stRootE).2.1 = { euid := 1000, egid := 0 } :=
  change_user_accepts_root_gid ctxGidZero stRootE rfl "1000" "0" 1000 rfl
    (by decide) (by decide) rfl (by decide) rfl rfl

end Uidmng
